import Mathlib

/-
Verification of the judge-website plan-directed execution engine.

Shallow embedding of the TypeScript sources:
  * councilTool (executeCouncil, councilOutputSchema)
  * researchTool.execute
  * planningTool (agentSchema / planningSchema validation)
  * contextualizerTool (executeContextualizer)
  * fileStorage (saveExtractedText / getExtractedText / removeExtractedText)

Opaque LLM / search providers are modelled as explicit parameters whose
outcome is an `Except` value: `.ok` for a normal return, `.error` for a
thrown JavaScript exception.
-/

set_option autoImplicit false

namespace JudgeSite

/-- A thrown JavaScript value, as observed by a `catch (error: unknown)`
handler: either an `Error` instance carrying its `.message`, or some
non-`Error` value together with its `String(error)` coercion. -/
inductive JsError where
  | errObj (msg : String)
  | nonErr (repr : String)
deriving DecidableEq, Repr

/-- The idiom `let m = default; if (error instanceof Error) m = error.message`:
an `Error` yields its message, any other thrown value yields the default. -/
def jsErrorMessage (e : JsError) (default : String) : String :=
  match e with
  | .errObj m => m
  | .nonErr _ => default

/-- The idiom `error instanceof Error ? error.message : String(error)`. -/
def jsErrorString (e : JsError) : String :=
  match e with
  | .errObj m => m
  | .nonErr r => r

/-- The closed judgement enum of `councilOutputSchema`
(`z.enum(["passed", "hallucination", "not_verified", "not_aligned", "error"])`). -/
inductive Judgement where
  | passed
  | hallucination
  | not_verified
  | not_aligned
  | error
deriving DecidableEq, Repr

/-- The council output object (`councilOutputSchema`): a judgement tag plus
an explanation string. `generateObject` validates the provider output
against this schema, so a successful provider call yields exactly this shape. -/
structure CouncilResult where
  judgement : Judgement
  explanation : String
deriving DecidableEq, Repr

/-- `executeCouncil` from councilTool: calls `generateObject` (the council
LLM, modelled as the `provider` outcome) inside a `try`; a schema-valid
object is returned as-is, and any exception is caught and converted into a
`CouncilResult` with judgement `error` whose explanation appends the fault
description to a fixed prefix. -/
def executeCouncil (provider : Except JsError CouncilResult) : CouncilResult :=
  match provider with
  | .ok evaluation => evaluation
  | .error e =>
      { judgement := .error,
        explanation := "Council evaluation failed with exception: " ++ jsErrorString e }

/-- C2: `executeCouncil` is total: for every provider outcome it returns a
`CouncilResult` whose judgement is one of the five schema tags, and a
provider fault is never propagated — it is converted into a result with
judgement `error` whose explanation carries the fault description. -/
theorem executeCouncil_total (provider : Except JsError CouncilResult) :
    ((executeCouncil provider).judgement = .passed ∨
     (executeCouncil provider).judgement = .hallucination ∨
     (executeCouncil provider).judgement = .not_verified ∨
     (executeCouncil provider).judgement = .not_aligned ∨
     (executeCouncil provider).judgement = .error) ∧
    (∀ e : JsError, provider = .error e →
      executeCouncil provider =
        { judgement := .error,
          explanation := "Council evaluation failed with exception: " ++ jsErrorString e }) := by
  constructor
  · rcases h : (executeCouncil provider).judgement <;> simp
  · intro e he
    subst he
    rfl

/-- Witness for C2: a concrete provider fault is converted into the
`error` verdict with the fault description in the explanation. -/
theorem executeCouncil_total_witness :
    executeCouncil (.error (.errObj "provider down")) =
      { judgement := .error,
        explanation := "Council evaluation failed with exception: " ++
          jsErrorString (.errObj "provider down") } :=
  (executeCouncil_total (.error (.errObj "provider down"))).2 (.errObj "provider down") rfl

/-- One raw search hit as returned by `exa.searchAndContents`: the `title`
and `text` fields may be absent. -/
structure ExaResultItem where
  title : Option String
  url : String
  text : Option String
deriving DecidableEq, Repr

/-- One mapped search hit as produced by `researchTool.execute`
(`response.results.map`), with defaults substituted for missing fields. -/
structure ResearchResultItem where
  title : String
  url : String
  text : String
deriving DecidableEq, Repr

/-- One per-query entry of the research tool output
(`{ query, results, error }`). -/
structure ResearchEntry where
  query : String
  results : List ResearchResultItem
  error : Option String
deriving DecidableEq, Repr

/-- The JavaScript idiom `v || default` on an optional string: an absent or
empty string is falsy and yields the default. -/
def jsOrString (v : Option String) (default : String) : String :=
  match v with
  | some s => if s = "" then default else s
  | none => default

/-- The per-hit mapping inside `researchTool.execute`:
`{ title: res.title || 'No title available', url: res.url,
   text: res.text || 'No text content retrieved.' }`. -/
def mapExaItem (r : ExaResultItem) : ResearchResultItem :=
  { title := jsOrString r.title "No title available",
    url := r.url,
    text := jsOrString r.text "No text content retrieved." }

/-- `researchTool.execute`: if `EXA_API_KEY` is unset, every query maps to a
fixed error entry; otherwise each query is searched independently
(`queries.map` + `Promise.all`, the per-query search modelled as `provider`),
a success mapping its hits and a thrown exception being caught and recorded
as `{ query, results: [], error: message }`. -/
def researchExecute (hasApiKey : Bool)
    (provider : String → Except JsError (List ExaResultItem))
    (queries : List String) : List ResearchEntry :=
  if !hasApiKey then
    queries.map (fun q =>
      { query := q, results := [], error := some "EXA_API_KEY is not configured." })
  else
    queries.map (fun q =>
      match provider q with
      | .ok response =>
          { query := q, results := response.map mapExaItem, error := none }
      | .error e =>
          { query := q, results := [],
            error := some (jsErrorMessage e "An unknown error occurred during searchAndContents.") })

/-- C3: the research tool output has exactly one entry per input query, in
input order, each entry echoing its query — whatever the provider does and
whether or not the API key is configured. -/
theorem researchExecute_one_entry_per_query (hasApiKey : Bool)
    (provider : String → Except JsError (List ExaResultItem))
    (queries : List String) :
    (researchExecute hasApiKey provider queries).map (fun entry => entry.query) = queries := by
  cases hasApiKey
  · induction queries with
    | nil => rfl
    | cons q qs ih =>
        have hq : (researchExecute false provider (q :: qs)).map (fun entry => entry.query) =
            q :: (researchExecute false provider qs).map (fun entry => entry.query) := rfl
        rw [hq, ih]
  · induction queries with
    | nil => rfl
    | cons q qs ih =>
        have hq : (researchExecute true provider (q :: qs)).map (fun entry => entry.query) =
            (match provider q with
              | .ok response =>
                  ({ query := q, results := response.map mapExaItem,
                     error := none } : ResearchEntry)
              | .error e =>
                  { query := q, results := [],
                    error := some (jsErrorMessage e
                      "An unknown error occurred during searchAndContents.") }).query ::
              (researchExecute true provider qs).map (fun entry => entry.query) := rfl
        rw [hq, ih]
        cases provider q <;> rfl

/-- C4: a failing query is node-local: its entry records
`{ results: [], error: message }`, and the entries for the sibling queries
are exactly those the tool produces with the failing query absent. -/
theorem researchExecute_failure_is_node_local
    (provider : String → Except JsError (List ExaResultItem))
    (q : String) (e : JsError) (qs₁ qs₂ : List String)
    (hq : provider q = .error e) :
    researchExecute true provider (qs₁ ++ q :: qs₂) =
      researchExecute true provider qs₁ ++
        ({ query := q, results := [],
           error := some (jsErrorMessage e "An unknown error occurred during searchAndContents.") } ::
          researchExecute true provider qs₂) := by
  unfold researchExecute
  simp [hq]

/-- A concrete provider for the C4 witness: the query "q2" throws, every
other query succeeds with no hits. -/
def c4Provider : String → Except JsError (List ExaResultItem) :=
  fun s => if s = "q2" then .error (.errObj "search quota exceeded") else .ok []

/-- Witness for C4: with "q2" failing among ["q1", "q2", "q3"], the output
is the "q1" run, then the recorded failure entry, then the "q3" run. -/
theorem researchExecute_failure_is_node_local_witness :
    researchExecute true c4Provider (["q1"] ++ "q2" :: ["q3"]) =
      researchExecute true c4Provider ["q1"] ++
        ({ query := "q2", results := [],
           error := some (jsErrorMessage (.errObj "search quota exceeded")
             "An unknown error occurred during searchAndContents.") } ::
          researchExecute true c4Provider ["q3"]) :=
  researchExecute_failure_is_node_local c4Provider "q2" (.errObj "search quota exceeded")
    ["q1"] ["q3"] rfl

/-- One agent of a raw candidate plan, with the fields of `agentSchema`
before the enum/refinement checks run: the type tag is still an arbitrary
string and the query may be absent. -/
structure RawAgent where
  type : String
  order : Int
  purpose : String
  dependencies : List Int
  query : Option String
deriving DecidableEq, Repr

/-- A raw candidate plan, with the fields of `planningSchema`. -/
structure RawPlan where
  task : String
  agents : List RawAgent
deriving DecidableEq, Repr

/-- The type-tag check of `agentSchema`:
`z.enum(['researcher', 'contextualizer', 'analyst'])`. -/
def validTypeTag (s : String) : Bool :=
  s == "researcher" || s == "contextualizer" || s == "analyst"

/-- The membership test inside the `.refine` predicate of `agentSchema`:
`['researcher', 'contextualizer', 'analyst'].includes(agent.type)`. -/
def requiresQueryTag (s : String) : Bool :=
  s == "researcher" || s == "contextualizer" || s == "analyst"

/-- The `.refine` predicate of `agentSchema`:
`typeof agent.query === 'string' && agent.query.length > 0` for the types
that require a query, vacuously true otherwise. -/
def agentRefineOk (a : RawAgent) : Bool :=
  if requiresQueryTag a.type then
    match a.query with
    | some q => decide (0 < q.length)
    | none => false
  else true

/-- The issues `agentSchema.safeParse` reports for one agent: an invalid
enum value stops the refinement from running; a type-valid agent failing
the refinement yields the query-required message. (Message text abridged:
the source message quotes the three type names.) -/
def validateAgent (a : RawAgent) : List String :=
  if validTypeTag a.type then
    if agentRefineOk a then []
    else ["Query is required for agent types researcher, contextualizer, and analyst."]
  else ["Invalid enum value for agent type."]

/-- The issues `planningSchema.safeParse` reports for a whole plan: the
concatenation of every agent's issues. No other check exists — dependencies
and order values are only required to be numbers. -/
def validatePlan (p : RawPlan) : List String :=
  p.agents.flatMap validateAgent

/-- Replace one agent's dependency list (pointwise, via `f`). -/
def setAgentDeps (f : List Int → List Int) (a : RawAgent) : RawAgent :=
  { a with dependencies := f a.dependencies }

/-- Replace every agent's dependency list in a plan (pointwise, via `f`). -/
def setPlanDeps (f : List Int → List Int) (p : RawPlan) : RawPlan :=
  { p with agents := p.agents.map (setAgentDeps f) }

/-- How many agents of a plan are researchers in a given order group. -/
def researcherCountAtOrder (p : RawPlan) (o : Int) : Nat :=
  (p.agents.filter (fun a => a.type == "researcher" && a.order == o)).length

/-- A concrete plan whose single node depends on its own order value. -/
def selfDepPlan : RawPlan :=
  { task := "find x",
    agents := [{ type := "researcher", order := 1, purpose := "search",
                 dependencies := [1], query := some "x" }] }

/-- Counterexample to C1: the plan whose node depends on its own order
value passes validation with no issues, although every node's dependency
set contains a value equal to its own order. -/
theorem validatePlan_accepts_self_dependency :
    validatePlan selfDepPlan = [] ∧
      selfDepPlan.agents.all (fun a => a.dependencies.contains a.order) = true := by
  constructor <;> rfl

/-- C1 amended: plan validation never inspects dependency values — rewriting
every node's dependency list in any way leaves the validation outcome
unchanged, so a plan whose node depends on an order ≥ its own is accepted
whenever its type and query checks pass. -/
theorem validatePlan_ignores_dependencies (p : RawPlan) (f : List Int → List Int) :
    validatePlan (setPlanDeps f p) = validatePlan p := by
  unfold validatePlan setPlanDeps
  simp only [List.flatMap_map]
  apply List.flatMap_congr
  intro a _
  cases a
  rfl

/-- C6: the schema's type enum accepts `researcher`, `contextualizer` and
`analyst` but rejects `qa`, although the planning tool description, the
orchestrator prompts and the UI plan type all list `qa` as a fourth agent
type: an agent tagged `qa` fails validation with the enum issue. -/
theorem validTypeTag_rejects_qa :
    validTypeTag "researcher" = true ∧
    validTypeTag "contextualizer" = true ∧
    validTypeTag "analyst" = true ∧
    validTypeTag "qa" = false ∧
    validateAgent { type := "qa", order := 1, purpose := "answer from context",
                    dependencies := [], query := some "q" } =
      ["Invalid enum value for agent type."] := by
  refine ⟨rfl, rfl, rfl, rfl, rfl⟩

/-- Whether an agent carries a query string of non-zero length (the property
named by the spec for query-requiring types). -/
def hasNonemptyQuery (a : RawAgent) : Bool :=
  match a.query with
  | some q => decide (0 < q.length)
  | none => false

/-- C7: for an agent of a query-requiring type inside a plan that validates
with no issues, the agent carries a non-empty query; equivalently an absent
or empty query on such an agent is a validation error. -/
theorem validatePlan_requires_query (p : RawPlan) (a : RawAgent)
    (ha : a ∈ p.agents) (ht : requiresQueryTag a.type = true)
    (hv : validatePlan p = []) : hasNonemptyQuery a = true := by
  have hagent : validateAgent a = [] := by
    have := List.flatMap_eq_nil_iff.mp hv a ha
    exact this
  unfold validateAgent at hagent
  by_cases htag : validTypeTag a.type = true
  · rw [if_pos htag] at hagent
    by_cases href : agentRefineOk a = true
    · unfold agentRefineOk at href
      rw [if_pos ht] at href
      unfold hasNonemptyQuery
      cases hq : a.query with
      | none => rw [hq] at href; exact absurd href (by simp)
      | some q => rw [hq] at href; exact href
    · rw [if_neg href] at hagent
      exact absurd hagent (by simp)
  · rw [if_neg htag] at hagent
    exact absurd hagent (by simp)

/-- A concrete valid plan with one researcher agent, for the C7 witness. -/
def c7Plan : RawPlan :=
  { task := "find x",
    agents := [{ type := "researcher", order := 1, purpose := "search",
                 dependencies := [], query := some "x" }] }

/-- Witness for C7: the researcher agent of a concretely validated plan
carries a non-empty query. -/
theorem validatePlan_requires_query_witness :
    hasNonemptyQuery { type := "researcher", order := 1, purpose := "search",
                       dependencies := [], query := some "x" } = true :=
  validatePlan_requires_query c7Plan _ (by decide) (by decide) (by decide)

/-- A concrete plan with three researcher agents all in order group 1. -/
def threeResearcherPlan : RawPlan :=
  { task := "broad research",
    agents := [{ type := "researcher", order := 1, purpose := "a",
                 dependencies := [], query := some "qa1" },
               { type := "researcher", order := 1, purpose := "b",
                 dependencies := [], query := some "qb1" },
               { type := "researcher", order := 1, purpose := "c",
                 dependencies := [], query := some "qc1" }] }

/-- Counterexample to C8: a plan with three researchers in one order group
validates with an empty issue list — it is not rejected, but nothing is
flagged either: the validator's whole output is the empty list, so no
rate-limit diagnostic of any kind reaches the caller. -/
theorem validatePlan_no_rate_limit_flag :
    validatePlan threeResearcherPlan = [] ∧
      researcherCountAtOrder threeResearcherPlan 1 = 3 := by
  constructor <;> rfl

/-- C8 amended: validation neither rejects nor flags a rate-limit
violation: whenever every agent individually passes the type and query
checks, the validator's output is the empty issue list, even when an order
group holds more than 2 researchers. -/
theorem validatePlan_silent_on_rate_limit (p : RawPlan) (o : Int)
    (h : ∀ a ∈ p.agents, validateAgent a = [])
    (_hcount : 2 < researcherCountAtOrder p o) :
    validatePlan p = [] :=
  List.flatMap_eq_nil_iff.mpr h

/-- Witness for C8 amended: the three-researcher plan satisfies both
hypotheses and validates with no issues. -/
theorem validatePlan_silent_on_rate_limit_witness :
    validatePlan threeResearcherPlan = [] :=
  validatePlan_silent_on_rate_limit threeResearcherPlan 1 (by decide) (by decide)

/-- The `ExtractedFile` record of fileStorage.ts and contextualizerTool.ts. -/
structure ExtractedFile where
  fileName : String
  fileType : String
  fileSize : Nat
  text : String
  extractedAt : Nat
deriving DecidableEq, Repr

/-- The JSON object stored in `localStorage` under `extractedTexts`: a
string-keyed record of `ExtractedFile` values, as an ordered key-value
list (JavaScript objects keep insertion order; keys are unique, assignment
replaces in place and `delete` removes). -/
abbrev Store : Type := List (String × ExtractedFile)

/-- `getExtractedText(fileName)`: look the file name up in the stored
record (`texts[fileName] || null`). -/
def getExtractedText (fileName : String) (st : Store) : Option ExtractedFile :=
  match st.find? (fun p => p.1 == fileName) with
  | some p => some p.2
  | none => none

/-- The object assigned by `saveExtractedText`:
`{ fileName, fileType, fileSize, text, extractedAt: Date.now() }`. -/
def extractedEntry (fileName fileType : String) (fileSize : Nat) (text : String)
    (now : Nat) : ExtractedFile :=
  { fileName := fileName, fileType := fileType, fileSize := fileSize,
    text := text, extractedAt := now }

/-- `saveExtractedText(fileName, fileType, fileSize, text)`: read the
stored record, assign `existingData[fileName] = { ... }` (replacing in
place when the key exists, appending otherwise), and write the record
back. `now` stands for `Date.now()`. -/
def saveExtractedText (fileName fileType : String) (fileSize : Nat) (text : String)
    (now : Nat) (st : Store) : Store :=
  if st.any (fun p => p.1 == fileName) then
    st.map (fun p =>
      if p.1 == fileName then (fileName, extractedEntry fileName fileType fileSize text now)
      else p)
  else st ++ [(fileName, extractedEntry fileName fileType fileSize text now)]

/-- `removeExtractedText(fileName)`: if the key is present, delete it from
the stored record and write the record back; otherwise leave the store
unchanged. -/
def removeExtractedText (fileName : String) (st : Store) : Store :=
  if st.any (fun p => p.1 == fileName) then
    st.filter (fun p => !(p.1 == fileName))
  else st

theorem find?_set_map (n : String) (v : ExtractedFile) (st : Store)
    (h : st.any (fun p => p.1 == n) = true) :
    (st.map (fun p => if p.1 == n then (n, v) else p)).find? (fun p => p.1 == n) =
      some (n, v) := by
  induction st with
  | nil => simp at h
  | cons p ps ih =>
      rw [List.any_cons] at h
      by_cases hp : (p.1 == n) = true
      · simp only [List.map_cons, if_pos hp, List.find?_cons]
        simp
      · simp only [List.map_cons, if_neg hp, List.find?_cons]
        have hp' : (p.1 == n) = false := by simpa using hp
        simp only [hp']
        refine ih ?_
        rcases Bool.or_eq_true_iff.mp h with h1 | h1
        · exact absurd h1 hp
        · exact h1

theorem find?_set_map_other (n m : String) (v : ExtractedFile) (st : Store)
    (hm : m ≠ n) :
    (st.map (fun p => if p.1 == n then (n, v) else p)).find? (fun p => p.1 == m) =
      st.find? (fun p => p.1 == m) := by
  induction st with
  | nil => rfl
  | cons p ps ih =>
      by_cases hp : (p.1 == n) = true
      · have hp1 : p.1 = n := by simpa using hp
        have hnm : ((n : String) == m) = false := by
          simp only [beq_eq_false_iff_ne, ne_eq]
          exact fun hc => hm hc.symm
        have hpm : (p.1 == m) = false := by rw [hp1]; exact hnm
        simp only [List.map_cons, if_pos hp, List.find?_cons, hnm, hpm]
        exact ih
      · simp only [List.map_cons, if_neg hp, List.find?_cons]
        cases hpm : (p.1 == m) with
        | false => simp only [hpm]; exact ih
        | true => simp only [hpm]

theorem find?_filter_other (n m : String) (st : Store) (hm : m ≠ n) :
    (st.filter (fun p => !(p.1 == n))).find? (fun p => p.1 == m) =
      st.find? (fun p => p.1 == m) := by
  induction st with
  | nil => rfl
  | cons p ps ih =>
      by_cases hp : (p.1 == n) = true
      · have hp1 : p.1 = n := by simpa using hp
        have hpm : (p.1 == m) = false := by
          rw [hp1]
          simp only [beq_eq_false_iff_ne, ne_eq]
          exact fun hc => hm hc.symm
        rw [List.filter_cons_of_neg (by simp [hp])]
        simp only [List.find?_cons, hpm]
        exact ih
      · rw [List.filter_cons_of_pos (by simp [hp])]
        cases hpm : (p.1 == m) with
        | false => simp only [List.find?_cons, hpm]; exact ih
        | true => simp only [List.find?_cons, hpm]

theorem getExtractedText_save_self (n t : String) (s : Nat) (x : String) (now : Nat)
    (st : Store) :
    getExtractedText n (saveExtractedText n t s x now st) =
      some (extractedEntry n t s x now) := by
  unfold getExtractedText saveExtractedText
  by_cases h : st.any (fun p => p.1 == n) = true
  · rw [if_pos h, find?_set_map n _ st h]
  · rw [if_neg h]
    have hnone : st.find? (fun p => p.1 == n) = none := by
      rw [List.find?_eq_none]
      intro p hp hpn
      exact h (List.any_eq_true.mpr ⟨p, hp, hpn⟩)
    rw [List.find?_append, hnone]
    simp [List.find?]

theorem getExtractedText_save_other (n t : String) (s : Nat) (x : String) (now : Nat)
    (st : Store) (m : String) (hm : m ≠ n) :
    getExtractedText m (saveExtractedText n t s x now st) = getExtractedText m st := by
  unfold getExtractedText saveExtractedText
  by_cases h : st.any (fun p => p.1 == n) = true
  · rw [if_pos h, find?_set_map_other n m _ st hm]
  · rw [if_neg h, List.find?_append]
    have hone : List.find? (fun p => p.1 == m) [(n, extractedEntry n t s x now)] = none := by
      rw [List.find?_eq_none]
      intro p hp
      simp only [List.mem_singleton] at hp
      subst hp
      simp only [beq_iff_eq]
      exact fun hc => hm hc.symm
    rw [hone]
    cases st.find? (fun p => p.1 == m) <;> rfl

theorem getExtractedText_remove_self (n : String) (st : Store) :
    getExtractedText n (removeExtractedText n st) = none := by
  unfold getExtractedText removeExtractedText
  by_cases h : st.any (fun p => p.1 == n) = true
  · rw [if_pos h]
    have hnone : (st.filter (fun p => !(p.1 == n))).find? (fun p => p.1 == n) = none := by
      rw [List.find?_eq_none]
      intro p hp hpn
      have := (List.mem_filter.mp hp).2
      rw [hpn] at this
      exact absurd this (by simp)
    rw [hnone]
  · rw [if_neg h]
    have hnone : st.find? (fun p => p.1 == n) = none := by
      rw [List.find?_eq_none]
      intro p hp hpn
      exact h (List.any_eq_true.mpr ⟨p, hp, hpn⟩)
    rw [hnone]

theorem getExtractedText_remove_other (n : String) (st : Store) (m : String) (hm : m ≠ n) :
    getExtractedText m (removeExtractedText n st) = getExtractedText m st := by
  unfold getExtractedText removeExtractedText
  by_cases h : st.any (fun p => p.1 == n) = true
  · rw [if_pos h, find?_filter_other n m st hm]
  · rw [if_neg h]

/-- C9: the local-file text store behaves as a per-file-name key-value map:
saving a file makes that file name look up to exactly the saved record,
removing a file name makes it look up to nothing, and both operations leave
every other file name's entry unchanged. -/
theorem fileStorage_round_trip (n t : String) (s : Nat) (x : String) (now : Nat)
    (st : Store) (m : String) (hm : m ≠ n) :
    getExtractedText n (saveExtractedText n t s x now st) =
        some { fileName := n, fileType := t, fileSize := s, text := x, extractedAt := now } ∧
      getExtractedText n (removeExtractedText n st) = none ∧
      getExtractedText m (saveExtractedText n t s x now st) = getExtractedText m st ∧
      getExtractedText m (removeExtractedText n st) = getExtractedText m st :=
  ⟨getExtractedText_save_self n t s x now st,
   getExtractedText_remove_self n st,
   getExtractedText_save_other n t s x now st m hm,
   getExtractedText_remove_other n st m hm⟩

/-- A concrete store for the C9 witness, holding one unrelated entry. -/
def c9Store : Store :=
  [("other.txt", { fileName := "other.txt", fileType := "text/plain", fileSize := 5,
                   text := "hello", extractedAt := 10 })]

/-- Witness for C9: the round-trip equations hold on a concrete store with
file names "doc.pdf" and "other.txt". -/
theorem fileStorage_round_trip_witness :
    getExtractedText "doc.pdf" (saveExtractedText "doc.pdf" "application/pdf" 42 "body" 99 c9Store) =
        some { fileName := "doc.pdf", fileType := "application/pdf", fileSize := 42,
               text := "body", extractedAt := 99 } ∧
      getExtractedText "doc.pdf" (removeExtractedText "doc.pdf" c9Store) = none ∧
      getExtractedText "other.txt"
          (saveExtractedText "doc.pdf" "application/pdf" 42 "body" 99 c9Store) =
        getExtractedText "other.txt" c9Store ∧
      getExtractedText "other.txt" (removeExtractedText "doc.pdf" c9Store) =
        getExtractedText "other.txt" c9Store :=
  fileStorage_round_trip "doc.pdf" "application/pdf" 42 "body" 99 c9Store "other.txt"
    (by decide)

/-- JavaScript `String.prototype.trim()`: strip whitespace from both ends
of the string. -/
def jsTrim (s : String) : String :=
  ⟨(((s.data.dropWhile Char.isWhitespace).reverse.dropWhile Char.isWhitespace).reverse)⟩

/-- The contextualizer output object (`ContextualizerResult`): the echoed
query, the found context text, and an optional error. -/
structure ContextualizerResult where
  query : String
  foundContext : String
  error : Option String
deriving DecidableEq, Repr

/-- `const files = Object.values(localContext)`: the file records of the
request's local-context map, in insertion order. -/
def contextFiles (localContext : List (String × ExtractedFile)) : List ExtractedFile :=
  localContext.map (fun p => p.2)

/-- `executeContextualizer` from contextualizerTool: an empty or too-short
query short-circuits with a vague-query error; an empty local-context map
short-circuits with a no-context error; otherwise the context-search LLM
runs (modelled as `provider`, taking the query and files), an exception is
caught and recorded in the error field, an empty response maps to an
empty-search error, and a non-empty response is returned trimmed. -/
def executeContextualizer (query : String)
    (localContext : List (String × ExtractedFile))
    (provider : String → List ExtractedFile → Except JsError String) :
    ContextualizerResult :=
  if query = "" ∨ (jsTrim query).length < 3 then
    { query := query,
      foundContext := "Search not performed: Query was too short or vague.",
      error := some "Query too vague for search." }
  else if (contextFiles localContext).length = 0 then
    { query := query,
      foundContext := "Search not performed: No local file context was provided with the request.",
      error := some "No local context available." }
  else
    match provider query (contextFiles localContext) with
    | .ok foundContext =>
        if foundContext = "" ∨ jsTrim foundContext = "" then
          { query := query,
            foundContext := "The AI search assistant could not find relevant information for the query in the provided files.",
            error := some "LLM search returned empty." }
        else
          { query := query, foundContext := jsTrim foundContext, error := none }
    | .error e =>
        { query := query,
          foundContext := "An error occurred while searching the file context.",
          error := some (jsErrorMessage e "An unknown error occurred during LLM context search.") }

/-- A provider that finds context, for the C10 counterexample. -/
def c10OkProvider : String → List ExtractedFile → Except JsError String :=
  fun _ _ => .ok "found it"

/-- A provider that throws an `Error` whose message is empty, for the C10
counterexample. -/
def c10EmptyThrowProvider : String → List ExtractedFile → Except JsError String :=
  fun _ _ => .error (.errObj "")

/-- A concrete local file. -/
def c10File : ExtractedFile :=
  { fileName := "notes.txt", fileType := "text/plain", fileSize := 4,
    text := "body", extractedAt := 0 }

/-- Counterexample to C10: (a) with an empty local-file map but a vague
query "a", the result's error is the vague-query message, not
"No local context available." as claimed for every empty-map call; (b) a
provider exception carrying an empty message yields an empty — not
non-empty — error field. -/
theorem executeContextualizer_counterexample :
    (executeContextualizer "a" [] c10OkProvider).error = some "Query too vague for search." ∧
      (executeContextualizer "a" [] c10OkProvider).error ≠ some "No local context available." ∧
      (executeContextualizer "find the notes" [("notes.txt", c10File)]
          c10EmptyThrowProvider).error = some "" := by
  refine ⟨by decide, by decide, by decide⟩

/-- C10 amended: `executeContextualizer` is total and reports faults only
through its result value: a query whose trimmed length is under 3 yields
the vague-query error for every provider and context; a non-vague query
with an empty local-file map yields the no-context error for every
provider; past both guards, a provider exception is caught and its message
(or a fixed fallback for non-`Error` throws) becomes the error field, and
an empty provider response becomes the empty-search error. -/
theorem executeContextualizer_fault_reporting (q : String)
    (lc : List (String × ExtractedFile))
    (provider : String → List ExtractedFile → Except JsError String) :
    ((q = "" ∨ (jsTrim q).length < 3) →
      executeContextualizer q lc provider =
        { query := q,
          foundContext := "Search not performed: Query was too short or vague.",
          error := some "Query too vague for search." }) ∧
    (¬(q = "" ∨ (jsTrim q).length < 3) → lc = [] →
      executeContextualizer q lc provider =
        { query := q,
          foundContext := "Search not performed: No local file context was provided with the request.",
          error := some "No local context available." }) ∧
    (¬(q = "" ∨ (jsTrim q).length < 3) → lc ≠ [] →
      ∀ e : JsError, provider q (contextFiles lc) = .error e →
        executeContextualizer q lc provider =
          { query := q,
            foundContext := "An error occurred while searching the file context.",
            error := some (jsErrorMessage e "An unknown error occurred during LLM context search.") }) ∧
    (¬(q = "" ∨ (jsTrim q).length < 3) → lc ≠ [] →
      ∀ t : String, provider q (contextFiles lc) = .ok t → jsTrim t = "" →
        executeContextualizer q lc provider =
          { query := q,
            foundContext := "The AI search assistant could not find relevant information for the query in the provided files.",
            error := some "LLM search returned empty." }) := by
  have hlen : lc ≠ [] → ¬((contextFiles lc).length = 0) := by
    intro hlc
    simp only [contextFiles, List.length_map, List.length_eq_zero]
    exact hlc
  refine ⟨?_, ?_, ?_, ?_⟩
  · intro hv
    unfold executeContextualizer
    rw [if_pos hv]
  · intro hv hlc
    unfold executeContextualizer
    rw [if_neg hv]
    subst hlc
    rfl
  · intro hv hlc e he
    unfold executeContextualizer
    rw [if_neg hv, if_neg (hlen hlc), he]
  · intro hv hlc t ht hempty
    unfold executeContextualizer
    rw [if_neg hv, if_neg (hlen hlc), ht]
    exact if_pos (Or.inr hempty)

/-- Witness for C10 amended: the three fault branches at concrete inputs —
vague query, empty map with a good query, and a provider exception. -/
theorem executeContextualizer_fault_reporting_witness :
    executeContextualizer "a" [] c10OkProvider =
        { query := "a",
          foundContext := "Search not performed: Query was too short or vague.",
          error := some "Query too vague for search." } ∧
      executeContextualizer "find the notes" [] c10OkProvider =
        { query := "find the notes",
          foundContext := "Search not performed: No local file context was provided with the request.",
          error := some "No local context available." } ∧
      executeContextualizer "find the notes" [("notes.txt", c10File)] c10EmptyThrowProvider =
        { query := "find the notes",
          foundContext := "An error occurred while searching the file context.",
          error := some (jsErrorMessage (.errObj "")
            "An unknown error occurred during LLM context search.") } :=
  ⟨(executeContextualizer_fault_reporting "a" [] c10OkProvider).1 (by decide),
   (executeContextualizer_fault_reporting "find the notes" [] c10OkProvider).2.1
     (by decide) rfl,
   (executeContextualizer_fault_reporting "find the notes" [("notes.txt", c10File)]
       c10EmptyThrowProvider).2.2.1 (by decide) (by decide) (.errObj "") rfl⟩

end JudgeSite
